import Mathlib

/-!
# Verification of the Scoring & Liquidity-Simulation Engine

Shallow embedding of the pure scoring and CPMM liquidity-simulation core of
the migration-intelligence repository:

* `lib/scoring.ts` — module scorers (`calcDemandScore`,
  `calcMarketPresenceScore`, `calcLiquidityScore`, `calcBridgeScore`),
  the composite aggregator (`calcOverallScore`) and the strategy decision
  procedure (`recommendStrategy`), together with the `SCORE_WEIGHTS` table
  and the `clamp` utility.
* `lib/liquidity-sim.ts` — the CPMM simulator (`calcSlippage`, `riskLevel`,
  `buildProjection`, `lpNeededForSlippage`, `buildRecommendation`,
  `runLiquiditySim`).

Modelling conventions:

* JavaScript `number` values are modelled as exact rationals (`ℚ`); the two
  scorers that call `Math.log10` (`calcMarketPresenceScore`,
  `calcLiquidityScore`) are modelled over `ℝ` with `Real.logb 10`, the exact
  idealisation of the floating-point `Math.log10`.  In
  `calcLiquidityScore` the logarithm is guarded by `tvl > 0`, so its
  argument is always `> 1`; in `calcMarketPresenceScore` the argument
  `uniqueRecipients + 1` can be zero or negative, where `Math.log10`
  returns `-Infinity` resp. `NaN`, so that scorer is modelled over the
  JS-value type `JsVal` (`nan | negInf | fin ℝ`) with the ECMAScript
  propagation rules for `*`, `+`, `Math.round`, `Math.max`, `Math.min`.
* `Math.round x` is `⌊x + 1/2⌋` (`jsRound` below): the nearest integer with
  ties rounded toward `+∞`, exactly the ECMAScript semantics.
* `parseFloat(pct.toFixed(4))` — rounding a percentage to four decimal
  places — is modelled as `roundTo4`, i.e. `jsRound (pct * 10000) / 10000`.
* `null` slippage values are `Option.none`; the IEEE value `Infinity`
  returned by `lpNeededForSlippage` for a non-positive ceiling is the
  `posInf` constructor of the two-constructor type `NumInf`.
* Display-only string fields (`breakdown` tables, `rationale`, `note`,
  `slippageNote`) that are built by numeric-to-string formatting are not
  modelled; `label` fields and other string constants are kept.  The
  capitalisation `chain.charAt(0).toUpperCase() + chain.slice(1)` inside the
  current-chain display label is likewise not modelled (the label is carried
  verbatim).
-/

/-- ECMAScript `Math.round`: nearest integer, ties toward `+∞`. -/
def jsRound {α : Type} [LinearOrderedField α] [FloorRing α] (x : α) : ℤ :=
  ⌊x + 1 / 2⌋

/-- `clamp(value, min, max)` from `lib/scoring.ts`:
`Math.min(max, Math.max(min, Math.round(value)))`.  The TypeScript parameter
names `min`/`max` are rendered `lo`/`hi`; every call site in the source
passes the bounds explicitly or uses the defaults `0`/`100`, which are
written out explicitly here. -/
def clamp {α : Type} [LinearOrderedField α] [FloorRing α] (value lo hi : α) : α :=
  min hi (max lo ((jsRound value : ℤ) : α))

/-- `parseFloat(x.toFixed(4))`: round to four decimal places. -/
def roundTo4 {α : Type} [LinearOrderedField α] [FloorRing α] (x : α) : α :=
  ((jsRound (x * 10000) : ℤ) : α) / 10000

/-- The `SCORE_WEIGHTS` table from `lib/scoring.ts`. -/
structure ScoreWeights where
  demand : ℚ
  marketPresence : ℚ
  liquidity : ℚ
  bridgeRisk : ℚ

/-- `SCORE_WEIGHTS = { demand: 0.30, marketPresence: 0.25, liquidity: 0.30,
bridgeRisk: 0.15 }`. -/
def SCORE_WEIGHTS : ScoreWeights :=
  { demand := 0.30
    marketPresence := 0.25
    liquidity := 0.30
    bridgeRisk := 0.15 }

/-- The `AllScores` record as it is passed to `recommendStrategy` and
`calcOverallScore` at the call site (`app/api/analyze/route.ts` builds
`allScores` with all five module scores; TypeScript structural typing admits
the extra `dumpRisk` field relative to the 4-field `AllScores` type alias in
`lib/scoring.ts`, and the spec data model lists all five).  Both consumers
read only the four weighted fields. -/
structure AllScores where
  demand : ℚ
  marketPresence : ℚ
  liquidity : ℚ
  bridgeRisk : ℚ
  dumpRisk : ℚ

/-- The weighted sum `scores.demand * SCORE_WEIGHTS.demand + …` computed
(inline, as the local `avg` / the argument of `clamp`) by both
`recommendStrategy` and `calcOverallScore` in `lib/scoring.ts`. -/
def weightedAvg (scores : AllScores) : ℚ :=
  scores.demand * SCORE_WEIGHTS.demand +
    scores.marketPresence * SCORE_WEIGHTS.marketPresence +
    scores.liquidity * SCORE_WEIGHTS.liquidity +
    scores.bridgeRisk * SCORE_WEIGHTS.bridgeRisk

/-- `StrategyResult` from `lib/scoring.ts`. -/
structure StrategyResult where
  strategy : String
  rationale : String
deriving DecidableEq

/-- `recommendStrategy` from `lib/scoring.ts` (Module 5): the ordered
decision tree over the weighted average and the liquidity score. -/
def recommendStrategy (scores : AllScores) : StrategyResult :=
  if 70 ≤ weightedAvg scores then
    { strategy := "Canonical Token Launch"
      rationale :=
        "Strong demand, deep liquidity, and broad market presence. " ++
          "Launch a native SPL token and migrate liquidity directly via Wormhole or CCIP." }
  else if 55 ≤ weightedAvg scores then
    { strategy := "LP-Based Migration"
      rationale :=
        "Moderate scores across the board. " ++
          "Seed a concentrated liquidity pool on Orca or Raydium to bootstrap trading before full migration." }
  else if scores.liquidity < 40 then
    { strategy := "Liquidity Bootstrapping Event (LBP)"
      rationale :=
        "Liquidity on the source chain is thin. " ++
          "Use a Liquidity Bootstrapping Pool on Fjord or Meteora to establish fair price discovery before launch." }
  else
    { strategy := "Wrapped Token"
      rationale :=
        "Overall readiness is below threshold. " ++
          "Start with a wrapped representation (e.g. via Wormhole) while building community and liquidity on Solana." }

/-- `calcOverallScore` from `lib/scoring.ts` (Module 6): clamp of the
weighted average; `dumpRisk` is not part of the sum. -/
def calcOverallScore (scores : AllScores) : ℚ :=
  clamp (weightedAvg scores) 0 100

/-- The `riskLevel` string union from `lib/liquidity-sim.ts` (identical to
the union inside `SlippageEstimate` in `lib/scoring.ts`): `"Low" |
"Moderate" | "High" | "Very High" | "N/A"`. -/
inductive RiskLevel where
  | low
  | moderate
  | high
  | veryHigh
  | na
deriving DecidableEq

/-- A reference trade size (`{ usd, label }` entries of `TRADE_TIERS` in
`lib/liquidity-sim.ts` and `SLIPPAGE_TRADE_SIZES` in `lib/scoring.ts`). -/
structure TradeSize (α : Type) where
  usd : α
  label : String
deriving DecidableEq

/-- `TRADE_TIERS` from `lib/liquidity-sim.ts`. -/
def TRADE_TIERS : List (TradeSize ℚ) :=
  [⟨1000, "$1K"⟩, ⟨10000, "$10K"⟩, ⟨100000, "$100K"⟩, ⟨1000000, "$1M"⟩]

/-- `SOLANA_TVL_FRACTION` from `lib/liquidity-sim.ts`. -/
def SOLANA_TVL_FRACTION : ℚ := 0.10

/-- `SOLANA_TVL_FLOOR_USD` from `lib/liquidity-sim.ts`. -/
def SOLANA_TVL_FLOOR_USD : ℚ := 10000

/-- `SOLANA_TVL_CAP_USD` from `lib/liquidity-sim.ts`. -/
def SOLANA_TVL_CAP_USD : ℚ := 50000000

/-- `BRIDGE_MIDPOINTS` from `lib/liquidity-sim.ts` (record lookup, `none`
when the chain key is absent). -/
def BRIDGE_MIDPOINTS (chain : String) : Option ℚ :=
  if chain = "ethereum" then some 9
  else if chain = "bsc" then some 3
  else if chain = "polygon" then some 2
  else none

/-- `BRIDGE_RANGES` from `lib/liquidity-sim.ts`. -/
def BRIDGE_RANGES (chain : String) : Option String :=
  if chain = "ethereum" then some "~$3-15"
  else if chain = "bsc" then some "~$1-4"
  else if chain = "polygon" then some "~$0.5-8"
  else none

/-- `calcSlippage` from `lib/liquidity-sim.ts`:
`null` when `poolTvlUsd <= 0`, else `tradeSizeUsd / (2 * poolTvlUsd) * 100`. -/
def calcSlippage (tradeSizeUsd poolTvlUsd : ℚ) : Option ℚ :=
  if poolTvlUsd ≤ 0 then none
  else some (tradeSizeUsd / (2 * poolTvlUsd) * 100)

/-- `riskLevel` from `lib/liquidity-sim.ts`: classify a slippage percentage
(or `null`) into a risk tier. -/
def riskLevel (pct : Option ℚ) : RiskLevel :=
  match pct with
  | none => .na
  | some p =>
    if p < 0.1 then .low
    else if p < 1 then .moderate
    else if p < 5 then .high
    else .veryHigh

/-- `SlippageTier` from `lib/liquidity-sim.ts`. -/
structure SlippageTier where
  tradeSizeUsd : ℚ
  label : String
  slippagePct : Option ℚ
  riskLevel : RiskLevel
deriving DecidableEq

/-- `ChainLiquidityProjection` from `lib/liquidity-sim.ts`. -/
structure ChainLiquidityProjection where
  label : String
  tvlUsd : ℚ
  slippageTiers : List SlippageTier
  depth1PctUsd : ℤ
  depth5PctUsd : ℤ
deriving DecidableEq

/-- `buildProjection` from `lib/liquidity-sim.ts`: the four slippage tiers
(the tier stores `parseFloat(pct.toFixed(4))` while `riskLevel` is applied
to the unrounded `pct`), plus the 1%/5% depth figures
`Math.round(quoteReserve * 0.01)` / `Math.round(quoteReserve * 0.05)` with
`quoteReserve = tvlUsd / 2`. -/
def buildProjection (label : String) (tvlUsd : ℚ) : ChainLiquidityProjection :=
  { label := label
    tvlUsd := tvlUsd
    slippageTiers := TRADE_TIERS.map fun t =>
      let pct := calcSlippage t.usd tvlUsd
      { tradeSizeUsd := t.usd
        label := t.label
        slippagePct := pct.map roundTo4
        riskLevel := riskLevel pct }
    depth1PctUsd := jsRound (tvlUsd / 2 * 0.01)
    depth5PctUsd := jsRound (tvlUsd / 2 * 0.05) }

/-- A JavaScript number that is either finite or `Infinity` — the possible
results of `lpNeededForSlippage` in `lib/liquidity-sim.ts`. -/
inductive NumInf where
  | fin (q : ℚ)
  | posInf
deriving DecidableEq

/-- `Math.round` lifted to possibly-infinite numbers
(`Math.round(Infinity) = Infinity`). -/
def jsRoundInf : NumInf → NumInf
  | .fin q => .fin ((jsRound q : ℤ) : ℚ)
  | .posInf => .posInf

/-- Addition of a finite number and a possibly-infinite number
(`x + Infinity = Infinity`). -/
def addInf (a : ℚ) : NumInf → NumInf
  | .fin q => .fin (a + q)
  | .posInf => .posInf

/-- `lpNeededForSlippage` from `lib/liquidity-sim.ts`: minimum TVL so that a
trade of `targetTradeUsd` stays under `maxSlippagePct` impact; `Infinity`
when the ceiling is non-positive. -/
def lpNeededForSlippage (targetTradeUsd maxSlippagePct : ℚ) : NumInf :=
  if maxSlippagePct ≤ 0 then .posInf
  else .fin (targetTradeUsd * 50 / maxSlippagePct)

/-- `LpRecommendation` from `lib/liquidity-sim.ts` (the generated
`rationale` display string is not modelled). -/
structure LpRecommendation where
  minLpUsd : NumInf
  targetLpUsd : NumInf
deriving DecidableEq

/-- `buildRecommendation` from `lib/liquidity-sim.ts`: `Math.round` both
seed amounts. -/
def buildRecommendation (minLpUsd targetLpUsd : NumInf) : LpRecommendation :=
  { minLpUsd := jsRoundInf minLpUsd
    targetLpUsd := jsRoundInf targetLpUsd }

/-- `MigrationCostEstimate` from `lib/liquidity-sim.ts`. -/
structure MigrationCostEstimate where
  bridgeFeeRange : String
  bridgeFeeUsd : ℚ
  lpSeedUsd : NumInf
  totalEstUsd : NumInf
deriving DecidableEq

/-- `LiquiditySimResult` from `lib/liquidity-sim.ts` (the `note` display
string is not modelled). -/
structure LiquiditySimResult where
  currentChain : ChainLiquidityProjection
  solana : ChainLiquidityProjection
  seededTvlUsd : ℚ
  recommendation : LpRecommendation
  migrationCost : MigrationCostEstimate
  hasTvlData : Bool
deriving DecidableEq

/-- `runLiquiditySim` from `lib/liquidity-sim.ts`.  `priceUsd` is a declared
parameter the body never reads, exactly as in the source. -/
def runLiquiditySim (totalPoolTvlUsd priceUsd : ℚ) (chain : String) :
    LiquiditySimResult :=
  let hasTvlData : Bool := decide (0 < totalPoolTvlUsd)
  let chainLabel := "Current (" ++ chain ++ ")"
  let currentChain := buildProjection chainLabel totalPoolTvlUsd
  let rawSolanatvl := totalPoolTvlUsd * SOLANA_TVL_FRACTION
  let seededTvlUsd :=
    if hasTvlData then
      min SOLANA_TVL_CAP_USD (max SOLANA_TVL_FLOOR_USD rawSolanatvl)
    else 0
  let solana := buildProjection "Solana (Post-Migration)" seededTvlUsd
  let minLpUsd := lpNeededForSlippage 10000 1
  let targetLpUsd := lpNeededForSlippage 100000 1
  let recommendation := buildRecommendation minLpUsd targetLpUsd
  let bridgeFeeUsd := (BRIDGE_MIDPOINTS chain).getD 5
  let bridgeRange := (BRIDGE_RANGES chain).getD "~$2-15"
  let migrationCost : MigrationCostEstimate :=
    { bridgeFeeRange := bridgeRange
      bridgeFeeUsd := bridgeFeeUsd
      lpSeedUsd := recommendation.targetLpUsd
      totalEstUsd := addInf bridgeFeeUsd recommendation.targetLpUsd }
  { currentChain := currentChain
    solana := solana
    seededTvlUsd := seededTvlUsd
    recommendation := recommendation
    migrationCost := migrationCost
    hasTvlData := hasTvlData }

/-- `ScoreResult` from `lib/scoring.ts`, generic over the score carrier
(`ℚ` for the exact-arithmetic scorers, `ℝ` for those calling `Math.log10`).
The `breakdown` display map of label strings is not modelled. -/
structure ScoreResult (α : Type) where
  score : α

/-- `DemandInput` from `lib/scoring.ts` (`marketCapRank` is
`number | null`). -/
structure DemandInput where
  volume24h : ℚ
  marketCap : ℚ
  marketCapRank : Option ℚ
  priceChange7d : ℚ
  priceChange30d : ℚ

/-- `calcDemandScore` from `lib/scoring.ts` (Module 1).  The rank sub-score
guard `data.marketCapRank ? … : 10` is JavaScript truthiness: both `null`
and a rank of `0` take the neutral-10 branch. -/
def calcDemandScore (data : DemandInput) : ScoreResult ℚ :=
  let volOverMcap :=
    if 0 < data.marketCap then data.volume24h / data.marketCap * 100 else 0
  let volScore := clamp (volOverMcap * 5) 0 40
  let rankScore : ℚ :=
    match data.marketCapRank with
    | none => 10
    | some r => if r = 0 then 10 else clamp (max 0 (30 - r * 0.3)) 0 30
  let trendScore :=
    clamp (15 + (data.priceChange7d * 0.5 + data.priceChange30d * 0.3)) 0 30
  ⟨clamp (volScore + rankScore + trendScore) 0 100⟩

/-- `MarketPresenceInput` from `lib/scoring.ts`. -/
structure MarketPresenceInput where
  uniqueRecipients : ℝ
  top10TransferPct : ℝ
  holderDataAvailable : Bool
  tickerCount : ℝ
  watchlistUsers : ℝ

/-- A JavaScript number as it can occur inside `calcMarketPresenceScore`:
`NaN`, `-Infinity` (both producible by `Math.log10`), or a finite real.
`+Infinity` cannot occur there and is not represented. -/
inductive JsVal where
  | nan
  | negInf
  | fin (x : ℝ)

/-- ECMAScript `Math.log10`: `NaN` on negative arguments, `-Infinity` at
zero, the real logarithm otherwise. -/
noncomputable def jsLog10 (x : ℝ) : JsVal :=
  if x < 0 then .nan
  else if x = 0 then .negInf
  else .fin (Real.logb 10 x)

/-- JS multiplication `v * c` for a **positive finite** constant `c` (the
only use here is `* 13`): `NaN * c = NaN`, `-Infinity * c = -Infinity`. -/
noncomputable def JsVal.mulPos : JsVal → ℝ → JsVal
  | .nan, _ => .nan
  | .negInf, _ => .negInf
  | .fin x, c => .fin (x * c)

/-- JS addition on the values occurring here (`+Infinity` never occurs):
`NaN` absorbs, otherwise `-Infinity` absorbs. -/
noncomputable def JsVal.add : JsVal → JsVal → JsVal
  | .nan, _ => .nan
  | _, .nan => .nan
  | .negInf, _ => .negInf
  | _, .negInf => .negInf
  | .fin x, .fin y => .fin (x + y)

/-- `Math.round` on `JsVal` (`Math.round(NaN) = NaN`,
`Math.round(-Infinity) = -Infinity`). -/
noncomputable def jsRoundJs : JsVal → JsVal
  | .nan => .nan
  | .negInf => .negInf
  | .fin x => .fin ((jsRound x : ℤ) : ℝ)

/-- `Math.max(lo, v)` for a finite `lo`: `NaN` absorbs,
`Math.max(lo, -Infinity) = lo`. -/
noncomputable def jsMaxC (lo : ℝ) : JsVal → JsVal
  | .nan => .nan
  | .negInf => .fin lo
  | .fin x => .fin (max lo x)

/-- `Math.min(hi, v)` for a finite `hi`: `NaN` absorbs,
`Math.min(hi, -Infinity) = -Infinity`. -/
noncomputable def jsMinC (hi : ℝ) : JsVal → JsVal
  | .nan => .nan
  | .negInf => .negInf
  | .fin x => .fin (min hi x)

/-- The `clamp` utility of `lib/scoring.ts` evaluated on a `JsVal`
argument: `Math.min(hi, Math.max(lo, Math.round(v)))`.  On a finite value
this agrees with `clamp`; it sends `-Infinity` to `lo` (for `lo ≤ hi`) and
propagates `NaN`. -/
noncomputable def clampJs (v : JsVal) (lo hi : ℝ) : JsVal :=
  jsMinC hi (jsMaxC lo (jsRoundJs v))

/-- `calcMarketPresenceScore` from `lib/scoring.ts` (Module 2).
`Math.log10(data.uniqueRecipients + 1)` is `jsLog10`, so the recipient
sub-score (and hence the final score) is a `JsVal`: `NaN` reaches the
result whenever holder data is available and `uniqueRecipients + 1 < 0`.
The concentration and exchange sub-scores are clamps of finite inputs and
so always finite; they are carried as plain reals.  The
`concentrationRisk` display string is not modelled. -/
noncomputable def calcMarketPresenceScore (data : MarketPresenceInput) :
    ScoreResult JsVal :=
  let recipientScore : JsVal :=
    if data.holderDataAvailable then
      clampJs ((jsLog10 (data.uniqueRecipients + 1)).mulPos 13) 0 40
    else .fin 20
  let concentrationScore : ℝ :=
    if data.holderDataAvailable then
      clamp (40 - data.top10TransferPct * 0.8) 0 40
    else 20
  let exchangeScore : ℝ := clamp (data.tickerCount * 0.4) 0 20
  ⟨clampJs ((recipientScore.add (.fin concentrationScore)).add
    (.fin exchangeScore)) 0 100⟩

/-- `LiquidityInput` from `lib/scoring.ts`. -/
structure LiquidityInput where
  totalPoolTvlUsd : ℝ
  poolCount : ℝ
  priceConfidence : ℝ
  volume24h : ℝ
  marketCap : ℝ
  tickerCount : ℝ
  high24h : ℝ
  low24h : ℝ

/-- `SlippageEstimate` from `lib/scoring.ts` (the liquidity module's own
tier record, over `ℝ` like the rest of that module). -/
structure SlippageEstimate where
  tradeSizeUsd : ℝ
  label : String
  slippagePct : Option ℝ
  riskLevel : RiskLevel

/-- `LiquidityScoreResult` from `lib/scoring.ts` (the `slippageNote` display
string is not modelled). -/
structure LiquidityScoreResult where
  score : ℝ
  slippage : List SlippageEstimate

/-- `SLIPPAGE_TRADE_SIZES` from `lib/scoring.ts`. -/
noncomputable def SLIPPAGE_TRADE_SIZES : List (TradeSize ℝ) :=
  [⟨10000, "$10K"⟩, ⟨100000, "$100K"⟩, ⟨500000, "$500K"⟩, ⟨1000000, "$1M"⟩]

/-- `calcLiquidityScore` from `lib/scoring.ts` (Module 3): TVL sub-score on
a log scale with a turnover-ratio fallback, plus the inline AMM slippage
estimation over `SLIPPAGE_TRADE_SIZES` (risk thresholds applied to the
unrounded percentage, `parseFloat(pct.toFixed(4))` stored). -/
noncomputable def calcLiquidityScore (data : LiquidityInput) :
    LiquidityScoreResult :=
  let hasTvlData := 0 < data.totalPoolTvlUsd
  let tvlScore :=
    if hasTvlData then clamp (Real.logb 10 (data.totalPoolTvlUsd + 1) * 10) 0 50
    else
      clamp
        (if 0 < data.marketCap then data.volume24h / data.marketCap * 100 * 5
         else 0)
        0 50
  let confidenceScore := clamp (data.priceConfidence * 20) 0 20
  let exchangeScore := clamp (data.tickerCount * 0.15) 0 15
  let spread :=
    if 0 < data.high24h then (data.high24h - data.low24h) / data.high24h * 100
    else 10
  let spreadScore := clamp (15 - spread * 1.5) 0 15
  let slippage : List SlippageEstimate :=
    SLIPPAGE_TRADE_SIZES.map fun t =>
      if ¬hasTvlData ∨ data.totalPoolTvlUsd = 0 then
        { tradeSizeUsd := t.usd, label := t.label, slippagePct := none,
          riskLevel := .na }
      else
        let pct := t.usd / (2 * data.totalPoolTvlUsd) * 100
        { tradeSizeUsd := t.usd
          label := t.label
          slippagePct := some (roundTo4 pct)
          riskLevel :=
            if pct < 0.1 then .low
            else if pct < 1 then .moderate
            else if pct < 5 then .high
            else .veryHigh }
  { score := clamp (tvlScore + confidenceScore + exchangeScore + spreadScore) 0 100
    slippage := slippage }

/-- `BridgeEntry` from `lib/scoring.ts`. -/
structure BridgeEntry where
  name : String
  supported : Bool
  estimatedCost : String
  finalityMin : ℚ

/-- The `ethereum` entry of `BRIDGE_DATA` in `calcBridgeScore`. -/
def ethereumBridges : List BridgeEntry :=
  [⟨"Wormhole", true, "$3-8", 15⟩,
   ⟨"CCIP (Chainlink)", true, "$5-15", 20⟩,
   ⟨"LayerZero", true, "$2-6", 10⟩]

/-- The `bsc` entry of `BRIDGE_DATA` in `calcBridgeScore`. -/
def bscBridges : List BridgeEntry :=
  [⟨"Wormhole", true, "$1-4", 5⟩,
   ⟨"CCIP (Chainlink)", false, "N/A", 0⟩,
   ⟨"LayerZero", true, "$1-3", 5⟩]

/-- The `polygon` entry of `BRIDGE_DATA` in `calcBridgeScore`. -/
def polygonBridges : List BridgeEntry :=
  [⟨"Wormhole", true, "$0.5-2", 5⟩,
   ⟨"CCIP (Chainlink)", true, "$2-8", 15⟩,
   ⟨"LayerZero", true, "$0.5-2", 5⟩]

/-- The `BRIDGE_DATA` record lookup inside `calcBridgeScore`. -/
def BRIDGE_DATA (chain : String) : Option (List BridgeEntry) :=
  if chain = "ethereum" then some ethereumBridges
  else if chain = "bsc" then some bscBridges
  else if chain = "polygon" then some polygonBridges
  else none

/-- Result shape of `calcBridgeScore` (`ScoreResult & { bridges }`; the
breakdown display map, which also carries the fastest-finality figure, is
not modelled). -/
structure BridgeScoreResult where
  score : ℚ
  bridges : List BridgeEntry

/-- `calcBridgeScore` from `lib/scoring.ts` (Module 4):
`clamp(30 + supported.length * 20)` over the static bridge table, falling
back to the `ethereum` table for unknown chains. -/
def calcBridgeScore (chain : String) : BridgeScoreResult :=
  let bridges := (BRIDGE_DATA chain).getD ethereumBridges
  let supported := bridges.filter fun b => b.supported
  { score := clamp (30 + (supported.length : ℚ) * 20) 0 100
    bridges := bridges }

/-! ## Helper lemmas -/

/-- Characterisation of `jsRound` by two inequalities, used to evaluate
roundings at concrete inputs. -/
theorem jsRound_eq {α : Type} [LinearOrderedField α] [FloorRing α] (x : α) (n : ℤ)
    (h1 : (n : α) ≤ x + 1 / 2) (h2 : x + 1 / 2 < (n : α) + 1) : jsRound x = n := by
  unfold jsRound
  rw [Int.floor_eq_iff]
  exact ⟨h1, by exact_mod_cast h2⟩

/-- `jsRound` is monotone. -/
theorem jsRound_mono {α : Type} [LinearOrderedField α] [FloorRing α] {x y : α}
    (h : x ≤ y) : jsRound x ≤ jsRound y :=
  Int.floor_le_floor (by linarith)

/-- `clamp` is monotone in its value argument. -/
theorem clamp_mono {α : Type} [LinearOrderedField α] [FloorRing α]
    {x y lo hi : α} (h : x ≤ y) : clamp x lo hi ≤ clamp y lo hi := by
  unfold clamp
  exact min_le_min le_rfl (max_le_max le_rfl (by exact_mod_cast jsRound_mono h))

/-- A `clamp … 0 100` value is an integer between 0 and 100. -/
theorem clamp_exists_int {α : Type} [LinearOrderedField α] [FloorRing α]
    (v : α) : ∃ n : ℤ, clamp v 0 100 = (n : α) ∧ 0 ≤ n ∧ n ≤ 100 := by
  refine ⟨min 100 (max 0 (jsRound v)), ?_, ?_, min_le_left _ _⟩
  · unfold clamp
    push_cast
    rfl
  · exact le_min (by norm_num) (le_max_left _ _)

/-- On a finite value `clampJs` agrees with `clamp`. -/
theorem clampJs_fin (x lo hi : ℝ) :
    clampJs (.fin x) lo hi = .fin (clamp x lo hi) := rfl

/-- `clampJs` sends `-Infinity` to `min hi lo` (= `lo` when `lo ≤ hi`). -/
theorem clampJs_negInf (lo hi : ℝ) :
    clampJs .negInf lo hi = .fin (min hi lo) := rfl

/-- `clampJs` propagates `NaN`. -/
theorem clampJs_nan (lo hi : ℝ) : clampJs .nan lo hi = .nan := rfl

/-! ## Claim theorems -/

/-- C1 counterexample: at `demand=80, marketPresence=75, liquidity=70,
bridgeRisk=80` (with `dumpRisk=0`) the weighted average computed by the
strategy procedure is `75.75`, not the `76.75` stated by the claim. -/
theorem recommendStrategy_sample_avg_counterexample :
    weightedAvg ⟨80, 75, 70, 80, 0⟩ = 75.75 ∧
      weightedAvg ⟨80, 75, 70, 80, 0⟩ ≠ 76.75 := by
  norm_num [weightedAvg, SCORE_WEIGHTS]

/-- C1 (amended): `recommendStrategy` evaluates its branches in order on the
weighted average `demand*0.30 + marketPresence*0.25 + liquidity*0.30 +
bridgeRisk*0.15` and always returns exactly one of the four strategies; for
`demand=80, marketPresence=75, liquidity=70, bridgeRisk=80` the weighted
average is `75.75` (not `76.75` as the claim states) and the strategy is
Canonical Token Launch regardless of `dumpRisk`. -/
theorem recommendStrategy_decision_tree :
    (∀ s : AllScores, 70 ≤ weightedAvg s →
      (recommendStrategy s).strategy = "Canonical Token Launch") ∧
    (∀ s : AllScores, weightedAvg s < 70 → 55 ≤ weightedAvg s →
      (recommendStrategy s).strategy = "LP-Based Migration") ∧
    (∀ s : AllScores, weightedAvg s < 55 → s.liquidity < 40 →
      (recommendStrategy s).strategy = "Liquidity Bootstrapping Event (LBP)") ∧
    (∀ s : AllScores, weightedAvg s < 55 → 40 ≤ s.liquidity →
      (recommendStrategy s).strategy = "Wrapped Token") ∧
    (∀ s : AllScores, (recommendStrategy s).strategy ∈
      ["Canonical Token Launch", "LP-Based Migration",
        "Liquidity Bootstrapping Event (LBP)", "Wrapped Token"]) ∧
    (∀ dumpRisk : ℚ, weightedAvg ⟨80, 75, 70, 80, dumpRisk⟩ = 75.75 ∧
      (recommendStrategy ⟨80, 75, 70, 80, dumpRisk⟩).strategy =
        "Canonical Token Launch") := by
  refine ⟨?_, ?_, ?_, ?_, ?_, ?_⟩
  · intro s h
    rw [recommendStrategy, if_pos h]
  · intro s h1 h2
    rw [recommendStrategy, if_neg (not_le.mpr h1), if_pos h2]
  · intro s h1 h2
    rw [recommendStrategy, if_neg (not_le.mpr (h1.trans_le (by norm_num))),
      if_neg (not_le.mpr h1), if_pos h2]
  · intro s h1 h2
    rw [recommendStrategy, if_neg (not_le.mpr (h1.trans_le (by norm_num))),
      if_neg (not_le.mpr h1), if_neg (not_lt.mpr h2)]
  · intro s
    rw [recommendStrategy]
    split_ifs <;> simp
  · intro d
    refine ⟨by norm_num [weightedAvg, SCORE_WEIGHTS], ?_⟩
    rw [recommendStrategy, if_pos (by norm_num [weightedAvg, SCORE_WEIGHTS])]

/-- C1 witness: the first branch fires at a concrete input. -/
theorem recommendStrategy_decision_tree_witness :
    (recommendStrategy ⟨100, 100, 100, 100, 0⟩).strategy =
        "Canonical Token Launch" ∧
      (recommendStrategy ⟨0, 0, 30, 0, 0⟩).strategy =
        "Liquidity Bootstrapping Event (LBP)" :=
  ⟨recommendStrategy_decision_tree.1 ⟨100, 100, 100, 100, 0⟩
      (by norm_num [weightedAvg, SCORE_WEIGHTS]),
    recommendStrategy_decision_tree.2.2.1 ⟨0, 0, 30, 0, 0⟩
      (by norm_num [weightedAvg, SCORE_WEIGHTS]) (by norm_num)⟩

/-- C2: the four composite weights sum to exactly 1; `calcOverallScore` is
the clamp of the weighted sum, is monotonically non-decreasing in each of
its four inputs, and does not depend on `dumpRisk`. -/
theorem calcOverallScore_weights_spec :
    (SCORE_WEIGHTS.demand + SCORE_WEIGHTS.marketPresence +
        SCORE_WEIGHTS.liquidity + SCORE_WEIGHTS.bridgeRisk = 1) ∧
    (∀ s : AllScores, calcOverallScore s =
      clamp (s.demand * 0.30 + s.marketPresence * 0.25 + s.liquidity * 0.30 +
        s.bridgeRisk * 0.15) 0 100) ∧
    (∀ a a' b c d e : ℚ, a ≤ a' →
      calcOverallScore ⟨a, b, c, d, e⟩ ≤ calcOverallScore ⟨a', b, c, d, e⟩) ∧
    (∀ a b b' c d e : ℚ, b ≤ b' →
      calcOverallScore ⟨a, b, c, d, e⟩ ≤ calcOverallScore ⟨a, b', c, d, e⟩) ∧
    (∀ a b c c' d e : ℚ, c ≤ c' →
      calcOverallScore ⟨a, b, c, d, e⟩ ≤ calcOverallScore ⟨a, b, c', d, e⟩) ∧
    (∀ a b c d d' e : ℚ, d ≤ d' →
      calcOverallScore ⟨a, b, c, d, e⟩ ≤ calcOverallScore ⟨a, b, c, d', e⟩) ∧
    (∀ a b c d x y : ℚ,
      calcOverallScore ⟨a, b, c, d, x⟩ = calcOverallScore ⟨a, b, c, d, y⟩) := by
  refine ⟨by norm_num [SCORE_WEIGHTS], fun s => rfl, ?_, ?_, ?_, ?_,
    fun a b c d x y => rfl⟩
  all_goals
    intro a b c d e f h
    apply clamp_mono
    simp only [weightedAvg, SCORE_WEIGHTS]
    nlinarith

/-- C2 witness: monotonicity in the demand input at concrete scores. -/
theorem calcOverallScore_weights_spec_witness :
    calcOverallScore ⟨50, 50, 50, 50, 0⟩ ≤ calcOverallScore ⟨80, 50, 50, 50, 0⟩ :=
  calcOverallScore_weights_spec.2.2.1 50 80 50 50 50 0 (by norm_num)

/-- C3: `slippagePct` is absent iff pool TVL ≤ 0; an absent percentage is
classified `N/A` (both by `riskLevel` and in every tier of a zero-TVL
projection); for positive TVL the percentage is
`tradeSizeUsd / (2 * poolTvlUsd) * 100`. -/
theorem calcSlippage_absence_law :
    ∀ (t tvl : ℚ) (label : String),
      (calcSlippage t tvl = none ↔ tvl ≤ 0) ∧
      (calcSlippage t tvl = none → riskLevel (calcSlippage t tvl) = .na) ∧
      (0 < tvl → calcSlippage t tvl = some (t / (2 * tvl) * 100)) ∧
      (tvl ≤ 0 → ∀ tier ∈ (buildProjection label tvl).slippageTiers,
        tier.slippagePct = none ∧ tier.riskLevel = .na) := by
  intro t tvl label
  refine ⟨?_, ?_, ?_, ?_⟩
  · unfold calcSlippage
    split_ifs with h <;> simp [h]
  · intro h
    rw [h]
    rfl
  · intro h
    rw [calcSlippage, if_neg (not_le.mpr h)]
  · intro h tier htier
    simp only [buildProjection, TRADE_TIERS, List.map_cons, List.map_nil,
      List.mem_cons, List.not_mem_nil, or_false] at htier
    have habs : ∀ u : ℚ, calcSlippage u tvl = none := fun u => by
      rw [calcSlippage, if_pos h]
    rcases htier with h1 | h1 | h1 | h1 <;>
      · subst h1
        rw [habs]
        exact ⟨rfl, rfl⟩

/-- C3 witness: the law applied at a zero-TVL pool and at a
$5M pool. -/
theorem calcSlippage_absence_law_witness :
    riskLevel (calcSlippage 100 0) = .na ∧
      calcSlippage 100000 5000000 = some (100000 / (2 * 5000000) * 100) :=
  ⟨(calcSlippage_absence_law 100 0 "x").2.1 (by rw [calcSlippage, if_pos le_rfl]),
    (calcSlippage_absence_law 100000 5000000 "x").2.2.1 (by norm_num)⟩

/-- C4 counterexample: the round trip fails at `T = 0`, `M = 1`: the
required TVL is `0`, at which the forward formula yields `null`, not `M`. -/
theorem lpNeededForSlippage_roundtrip_counterexample :
    lpNeededForSlippage 0 1 = NumInf.fin 0 ∧
      calcSlippage (0 * 2 * 1 / 100) 0 = none ∧
      calcSlippage (0 * 2 * 1 / 100) 0 ≠ some 1 := by
  refine ⟨?_, ?_, ?_⟩
  · rw [lpNeededForSlippage, if_neg (by norm_num)]
    norm_num
  · rw [calcSlippage, if_pos le_rfl]
  · rw [calcSlippage, if_pos le_rfl]
    exact fun h => Option.noConfusion h

/-- C4 (amended): `lpNeededForSlippage` returns `targetTradeUsd * 50 /
maxSlippagePct` for a positive ceiling and `+∞` otherwise; the
forward/inverse round trip holds for every `M > 0` and every **positive**
trade size `T` (it fails at `T = 0`, where the required TVL is `0` and the
forward formula is absent); concretely the two canonical seeds are
`500_000` and `5_000_000`. -/
theorem lpNeededForSlippage_spec :
    (∀ T M : ℚ, 0 < M → lpNeededForSlippage T M = NumInf.fin (T * 50 / M)) ∧
    (∀ T M : ℚ, M ≤ 0 → lpNeededForSlippage T M = NumInf.posInf) ∧
    (∀ T M : ℚ, 0 < M → 0 < T →
      calcSlippage (T * 50 / M * 2 * M / 100) (T * 50 / M) = some M) ∧
    lpNeededForSlippage 10000 1 = NumInf.fin 500000 ∧
    lpNeededForSlippage 100000 1 = NumInf.fin 5000000 := by
  refine ⟨?_, ?_, ?_, ?_, ?_⟩
  · intro T M hM
    rw [lpNeededForSlippage, if_neg (not_le.mpr hM)]
  · intro T M hM
    rw [lpNeededForSlippage, if_pos hM]
  · intro T M hM hT
    have htvl : 0 < T * 50 / M := by positivity
    rw [calcSlippage, if_neg (not_le.mpr htvl)]
    congr 1
    field_simp
    ring
  · rw [lpNeededForSlippage, if_neg (by norm_num)]
    norm_num
  · rw [lpNeededForSlippage, if_neg (by norm_num)]
    norm_num

/-- C4 witness: the round trip at `T = 10_000`, `M = 1`. -/
theorem lpNeededForSlippage_spec_witness :
    calcSlippage (10000 * 50 / 1 * 2 * 1 / 100) (10000 * 50 / 1) = some 1 :=
  lpNeededForSlippage_spec.2.2.1 10000 1 (by norm_num) (by norm_num)

/-- C5: at pool TVL `5_000_000` and trade size `100_000` the slippage is
exactly `1.0` and classifies as High — the `<1%` Moderate bound is
exclusive — both in the simulator's projection (`buildProjection`) and in
the liquidity scorer's tier list (`calcLiquidityScore`). -/
theorem slippage_one_percent_boundary :
    (buildProjection "Solana (Post-Migration)" 5000000).slippageTiers.get? 2 =
      some ⟨100000, "$100K", some 1, RiskLevel.high⟩ ∧
    riskLevel (some 1) = RiskLevel.high ∧
    (calcLiquidityScore ⟨5000000, 0, 0, 0, 0, 0, 0, 0⟩).slippage.get? 1 =
      some ⟨100000, "$100K", some 1, RiskLevel.high⟩ ∧
    calcSlippage 100000 5000000 = some 1 := by
  refine ⟨?_, ?_, ?_, ?_⟩
  · simp only [buildProjection, TRADE_TIERS, List.map_cons, List.get?]
    norm_num [calcSlippage, riskLevel, roundTo4]
    rw [jsRound_eq ((10000 : ℚ)) 10000 (by norm_num) (by norm_num)]
    norm_num
  · norm_num [riskLevel]
  · simp only [calcLiquidityScore, SLIPPAGE_TRADE_SIZES, List.map_cons,
      List.get?]
    norm_num [roundTo4]
    rw [jsRound_eq ((10000 : ℝ)) 10000 (by norm_num) (by norm_num)]
    norm_num
  · rw [calcSlippage, if_neg (by norm_num)]
    norm_num

/-- C6: for any `sourceTvl ≥ 0` the seeded destination TVL is in
`{0} ∪ [10_000, 50_000_000]`; it equals
`min(50_000_000, max(10_000, sourceTvl * 0.10))` when `sourceTvl > 0` and is
`0` (with `hasTvlData = false`) exactly when `sourceTvl ≤ 0`. -/
theorem seededTvl_bounds :
    ∀ (tvl price : ℚ) (chain : String), 0 ≤ tvl →
      ((runLiquiditySim tvl price chain).seededTvlUsd = 0 ∨
        (10000 ≤ (runLiquiditySim tvl price chain).seededTvlUsd ∧
          (runLiquiditySim tvl price chain).seededTvlUsd ≤ 50000000)) ∧
      (0 < tvl → (runLiquiditySim tvl price chain).seededTvlUsd =
        min 50000000 (max 10000 (tvl * 0.10))) ∧
      (tvl ≤ 0 → (runLiquiditySim tvl price chain).seededTvlUsd = 0 ∧
        (runLiquiditySim tvl price chain).hasTvlData = false) := by
  intro tvl price chain _h0
  have hseed : (runLiquiditySim tvl price chain).seededTvlUsd =
      if decide (0 < tvl) then
        min SOLANA_TVL_CAP_USD (max SOLANA_TVL_FLOOR_USD (tvl * SOLANA_TVL_FRACTION))
      else 0 := rfl
  have hhas : (runLiquiditySim tvl price chain).hasTvlData =
      decide (0 < tvl) := rfl
  rcases lt_or_le 0 tvl with h | h
  · have hd : decide (0 < tvl) = true := decide_eq_true h
    rw [hseed, hd, if_pos rfl]
    refine ⟨Or.inr ⟨?_, ?_⟩, fun _ => ?_, fun hle => absurd h (not_lt.mpr hle)⟩
    · exact le_min (by norm_num [SOLANA_TVL_CAP_USD])
        (le_trans (by norm_num [SOLANA_TVL_FLOOR_USD]) (le_max_left _ _))
    · exact le_trans (min_le_left _ _) (by norm_num [SOLANA_TVL_CAP_USD])
    · norm_num [SOLANA_TVL_CAP_USD, SOLANA_TVL_FLOOR_USD, SOLANA_TVL_FRACTION]
  · have hd : decide (0 < tvl) = false := decide_eq_false (not_lt.mpr h)
    rw [hseed, hhas, hd]
    exact ⟨Or.inl (if_neg (by simp)), fun hlt => absurd hlt (not_lt.mpr h),
      fun _ => ⟨if_neg (by simp), rfl⟩⟩

/-- C6 witness: a $200K source pool seeds
`min(50M, max(10K, 20K)) = 20K`; a zero-TVL source seeds `0`. -/
theorem seededTvl_bounds_witness :
    (runLiquiditySim 200000 1 "ethereum").seededTvlUsd =
        min 50000000 (max 10000 ((200000 : ℚ) * 0.10)) ∧
      (runLiquiditySim 0 1 "bsc").seededTvlUsd = 0 :=
  ⟨(seededTvl_bounds 200000 1 "ethereum" (by norm_num)).2.1 (by norm_num),
    ((seededTvl_bounds 0 1 "bsc" le_rfl).2.2 le_rfl).1⟩

/-- C10: the LP recommendation of `runLiquiditySim` is the constant pair
`minLpUsd = 500_000`, `targetLpUsd = 5_000_000` for every TVL, price and
chain, and `0 ≤ minLpUsd ≤ targetLpUsd`. -/
theorem runLiquiditySim_recommendation_const :
    ∀ (tvl price : ℚ) (chain : String),
      (runLiquiditySim tvl price chain).recommendation.minLpUsd =
          NumInf.fin 500000 ∧
        (runLiquiditySim tvl price chain).recommendation.targetLpUsd =
          NumInf.fin 5000000 ∧
        ((0 : ℚ) ≤ 500000 ∧ (500000 : ℚ) ≤ 5000000) := by
  intro tvl price chain
  have h1 : (runLiquiditySim tvl price chain).recommendation.minLpUsd =
      jsRoundInf (lpNeededForSlippage 10000 1) := rfl
  have h2 : (runLiquiditySim tvl price chain).recommendation.targetLpUsd =
      jsRoundInf (lpNeededForSlippage 100000 1) := rfl
  rw [h1, h2]
  simp only [lpNeededForSlippage, if_neg (show ¬(1 : ℚ) ≤ 0 by norm_num),
    jsRoundInf]
  norm_num
  constructor
  · rw [jsRound_eq ((500000 : ℚ)) 500000 (by norm_num) (by norm_num)]
    norm_num
  · rw [jsRound_eq ((5000000 : ℚ)) 5000000 (by norm_num) (by norm_num)]
    norm_num

/-- C7 counterexample: boundedness fails on the market-presence scorer.
At `uniqueRecipients = -2` with holder data available,
`Math.log10(-2 + 1)` is `NaN`, which propagates through `* 13`,
`Math.round`, `Math.max`, `Math.min` and the final sum, so the returned
score is `NaN` — not an integer in `[0, 100]`. -/
theorem marketPresence_nan_counterexample :
    (calcMarketPresenceScore ⟨-2, 0, true, 0, 0⟩).score = JsVal.nan ∧
      ¬∃ n : ℤ, (calcMarketPresenceScore ⟨-2, 0, true, 0, 0⟩).score =
        JsVal.fin (n : ℝ) ∧ 0 ≤ n ∧ n ≤ 100 := by
  have h : (calcMarketPresenceScore ⟨-2, 0, true, 0, 0⟩).score = JsVal.nan := by
    simp only [calcMarketPresenceScore, if_pos]
    rw [jsLog10, if_pos (by norm_num)]
    rfl
  refine ⟨h, ?_⟩
  rintro ⟨n, hn, -, -⟩
  rw [h] at hn
  exact JsVal.noConfusion hn

/-- C7 (amended): `clamp` is `min(max, max(min, round(value)))` and is the
terminal step of every score, so `calcDemandScore`, `calcLiquidityScore`
and `calcBridgeScore` return an integer score in `[0, 100]` for every
well-typed input; `calcMarketPresenceScore` does so whenever holder data is
unavailable or `uniqueRecipients ≥ -1`, but when holder data is available
and `uniqueRecipients < -1` the `Math.log10` of a negative argument makes
the returned score `NaN`, which is not a bounded integer. -/
theorem module_scores_bounded :
    (∀ v lo hi : ℚ, clamp v lo hi = min hi (max lo ((jsRound v : ℤ) : ℚ))) ∧
    (∀ d : DemandInput,
      ∃ n : ℤ, (calcDemandScore d).score = (n : ℚ) ∧ 0 ≤ n ∧ n ≤ 100) ∧
    (∀ m : MarketPresenceInput,
      m.holderDataAvailable = false ∨ -1 ≤ m.uniqueRecipients →
      ∃ n : ℤ, (calcMarketPresenceScore m).score = JsVal.fin (n : ℝ) ∧
        0 ≤ n ∧ n ≤ 100) ∧
    (∀ m : MarketPresenceInput,
      m.holderDataAvailable = true → m.uniqueRecipients < -1 →
      (calcMarketPresenceScore m).score = JsVal.nan) ∧
    (∀ l : LiquidityInput,
      ∃ n : ℤ, (calcLiquidityScore l).score = (n : ℝ) ∧ 0 ≤ n ∧ n ≤ 100) ∧
    (∀ chain : String,
      ∃ n : ℤ, (calcBridgeScore chain).score = (n : ℚ) ∧ 0 ≤ n ∧ n ≤ 100) := by
  refine ⟨fun _ _ _ => rfl, fun _ => clamp_exists_int _, ?_, ?_,
    fun _ => clamp_exists_int _, fun _ => clamp_exists_int _⟩
  · intro m hm
    have hrec : ∃ r : ℝ,
        (if m.holderDataAvailable then
          clampJs ((jsLog10 (m.uniqueRecipients + 1)).mulPos 13) 0 40
        else .fin 20) = JsVal.fin r := by
      by_cases hav : m.holderDataAvailable
      · rw [if_pos hav]
        rcases hm with h | h
        · rw [hav] at h
          exact absurd h (by simp)
        · rcases eq_or_lt_of_le (by linarith : (0 : ℝ) ≤ m.uniqueRecipients + 1)
            with h0 | h0
          · rw [jsLog10, if_neg (by linarith), if_pos h0.symm]
            exact ⟨min 40 0, rfl⟩
          · rw [jsLog10, if_neg (by linarith), if_neg (ne_of_gt h0)]
            exact ⟨clamp (Real.logb 10 (m.uniqueRecipients + 1) * 13) 0 40, rfl⟩
      · rw [if_neg hav]
        exact ⟨20, rfl⟩
    obtain ⟨r, hr⟩ := hrec
    simp only [calcMarketPresenceScore, hr]
    obtain ⟨n, hn, h0, h1⟩ := clamp_exists_int
      (r + (if m.holderDataAvailable then clamp (40 - m.top10TransferPct * 0.8) 0 40
        else 20) + clamp (m.tickerCount * 0.4) 0 20)
    exact ⟨n, by rw [JsVal.add, JsVal.add, clampJs_fin, hn], h0, h1⟩
  · intro m hav h
    simp only [calcMarketPresenceScore, hav, if_true]
    rw [jsLog10, if_pos (by linarith)]
    rfl

/-- C7 witness: the market-presence bound applied at a concrete input with
holder data available and a positive recipient count. -/
theorem module_scores_bounded_witness :
    (-1 : ℝ) ≤ ((⟨100, 10, true, 5, 0⟩ : MarketPresenceInput)).uniqueRecipients ∧
      ∃ n : ℤ, (calcMarketPresenceScore ⟨100, 10, true, 5, 0⟩).score =
        JsVal.fin (n : ℝ) ∧ 0 ≤ n ∧ n ≤ 100 :=
  ⟨by norm_num,
    module_scores_bounded.2.2.1 ⟨100, 10, true, 5, 0⟩ (Or.inr (by norm_num))⟩

/-- C8 counterexample: the depth figures are not **strictly** increasing in
TVL: raising the TVL from `100` to `101` leaves both rounded depth figures
unchanged. -/
theorem depth_strict_mono_counterexample :
    ((100 : ℚ) < 101) ∧
      (buildProjection "x" 100).depth1PctUsd =
        (buildProjection "x" 101).depth1PctUsd ∧
      (buildProjection "x" 100).depth5PctUsd =
        (buildProjection "x" 101).depth5PctUsd := by
  refine ⟨by norm_num, ?_, ?_⟩
  · show jsRound ((100 : ℚ) / 2 * 0.01) = jsRound ((101 : ℚ) / 2 * 0.01)
    rw [jsRound_eq ((100 : ℚ) / 2 * 0.01) 1 (by norm_num) (by norm_num),
      jsRound_eq ((101 : ℚ) / 2 * 0.01) 1 (by norm_num) (by norm_num)]
  · show jsRound ((100 : ℚ) / 2 * 0.05) = jsRound ((101 : ℚ) / 2 * 0.05)
    rw [jsRound_eq ((100 : ℚ) / 2 * 0.05) 3 (by norm_num) (by norm_num),
      jsRound_eq ((101 : ℚ) / 2 * 0.05) 3 (by norm_num) (by norm_num)]

/-- C8 (amended): the depth figures are
`round((tvlUsd/2) * 0.01)` and `round((tvlUsd/2) * 0.05)`, and both are
monotonically **non-decreasing** in `tvlUsd` (not strictly increasing,
because of the rounding). -/
theorem buildProjection_depth_spec :
    (∀ (label : String) (tvl : ℚ),
      (buildProjection label tvl).depth1PctUsd = jsRound (tvl / 2 * 0.01) ∧
      (buildProjection label tvl).depth5PctUsd = jsRound (tvl / 2 * 0.05)) ∧
    (∀ (l1 l2 : String) (t1 t2 : ℚ), t1 ≤ t2 →
      (buildProjection l1 t1).depth1PctUsd ≤
          (buildProjection l2 t2).depth1PctUsd ∧
        (buildProjection l1 t1).depth5PctUsd ≤
          (buildProjection l2 t2).depth5PctUsd) := by
  refine ⟨fun label tvl => ⟨rfl, rfl⟩, ?_⟩
  intro l1 l2 t1 t2 h
  constructor
  · show jsRound (t1 / 2 * 0.01) ≤ jsRound (t2 / 2 * 0.01)
    exact jsRound_mono (by nlinarith)
  · show jsRound (t1 / 2 * 0.05) ≤ jsRound (t2 / 2 * 0.05)
    exact jsRound_mono (by nlinarith)

/-- C8 witness: depth monotonicity at TVL `100 ≤ 200`. -/
theorem buildProjection_depth_spec_witness :
    (buildProjection "x" 100).depth1PctUsd ≤
        (buildProjection "y" 200).depth1PctUsd ∧
      (buildProjection "x" 100).depth5PctUsd ≤
        (buildProjection "y" 200).depth5PctUsd :=
  buildProjection_depth_spec.2 "x" "y" 100 200 (by norm_num)

/-- C9 counterexample: a tier's `riskLevel` is **not** a function of its
stored 4-decimal-rounded `slippagePct`.  At TVL `500_200` the `$1K` tier
stores `slippagePct = 0.1` (rounded up from `0.09996…`) yet is classified
`Low`, while the fixed thresholds applied to `0.1` give `Moderate` — and at
TVL `500_000` the `$1K` tier stores the same `0.1` but is `Moderate`. -/
theorem riskLevel_stored_counterexample :
    (buildProjection "x" 500200).slippageTiers.head? =
        some ⟨1000, "$1K", some 0.1, RiskLevel.low⟩ ∧
      riskLevel (some 0.1) = RiskLevel.moderate ∧
      (buildProjection "x" 500000).slippageTiers.head? =
        some ⟨1000, "$1K", some 0.1, RiskLevel.moderate⟩ := by
  refine ⟨?_, by norm_num [riskLevel], ?_⟩
  · simp only [buildProjection, TRADE_TIERS, List.map_cons, List.head?_cons]
    norm_num [calcSlippage, riskLevel, roundTo4]
    rw [jsRound_eq ((2500000 : ℚ) / 2501) 1000 (by norm_num) (by norm_num)]
    norm_num
  · simp only [buildProjection, TRADE_TIERS, List.map_cons, List.head?_cons]
    norm_num [calcSlippage, riskLevel, roundTo4]
    rw [jsRound_eq ((1000 : ℚ)) 1000 (by norm_num) (by norm_num)]
    norm_num

/-- C9 (amended): in every projection, each tier's `riskLevel` is the fixed
thresholds applied to the **unrounded** slippage percentage
(`calcSlippage tradeSizeUsd tvl`), and the stored `slippagePct` is that same
percentage rounded to 4 decimals — so the two can disagree when the
rounding crosses a threshold. -/
theorem buildProjection_riskLevel_spec :
    ∀ (label : String) (tvl : ℚ) (tier : SlippageTier),
      tier ∈ (buildProjection label tvl).slippageTiers →
        tier.riskLevel = riskLevel (calcSlippage tier.tradeSizeUsd tvl) ∧
          tier.slippagePct = (calcSlippage tier.tradeSizeUsd tvl).map roundTo4 := by
  intro label tvl tier htier
  simp only [buildProjection, TRADE_TIERS, List.map_cons, List.map_nil,
    List.mem_cons, List.not_mem_nil, or_false] at htier
  rcases htier with h | h | h | h <;> (subst h; exact ⟨rfl, rfl⟩)

/-- C9 witness: the law at the `$1K` tier of a `500_000`-TVL projection. -/
theorem buildProjection_riskLevel_spec_witness :
    (⟨1000, "$1K", some 0.1, RiskLevel.moderate⟩ : SlippageTier).riskLevel =
        riskLevel (calcSlippage
          (⟨1000, "$1K", some 0.1, RiskLevel.moderate⟩ : SlippageTier).tradeSizeUsd
          500000) ∧
      (⟨1000, "$1K", some 0.1, RiskLevel.moderate⟩ : SlippageTier).slippagePct =
        (calcSlippage
          (⟨1000, "$1K", some 0.1, RiskLevel.moderate⟩ : SlippageTier).tradeSizeUsd
          500000).map roundTo4 :=
  buildProjection_riskLevel_spec "x" 500000
    ⟨1000, "$1K", some 0.1, RiskLevel.moderate⟩
    (by
      simp only [buildProjection, TRADE_TIERS, List.map_cons, List.mem_cons]
      left
      norm_num [calcSlippage, riskLevel, roundTo4]
      rw [jsRound_eq ((1000 : ℚ)) 1000 (by norm_num) (by norm_num)]
      norm_num)
